import Mathlib

/-!
Verification of the searchmusicbot scraping client and conversation plumbing.

The development shallowly embeds the Python sources:
  - music_service.py : query builder, page parser, track model, retried
    network operations (aiohttp/tenacity modelled by explicit outcome
    oracles and an explicit 3-attempt retry combinator);
  - keyboards.py     : the inline search-results keyboard;
  - handlers.py      : the callback-handler track lookup.

Python strings are modelled as Lean strings (lists of characters); the
regular-expression classes \w and \s of music_service.py are modelled in
their ASCII regime, and theorems quantifying over arbitrary characters
carry explicit ASCII hypotheses where the distinction could matter.
-/

namespace MusicBot

/-- ASCII regime of the regex class \s and of str.strip: space, tab,
newline, carriage return, vertical tab, form feed. -/
def isSpaceChar (c : Char) : Bool :=
  c = ' ' || c = '\t' || c = '\n' || c = '\r' || c = Char.ofNat 11 || c = Char.ofNat 12

/-- ASCII regime of the regex class \w: letters, digits and underscore. -/
def isWordChar (c : Char) : Bool :=
  c.isAlphanum || c = '_'

/-- re.sub removing every character matching the class of characters that
are neither word characters nor whitespace (music_service.py line 167). -/
def reSubNonWordSpace (l : List Char) : List Char :=
  l.filter (fun c => isWordChar c || isSpaceChar c)

/-- str.strip with no argument: drop leading and trailing whitespace. -/
def pyStrip (l : List Char) : List Char :=
  ((l.dropWhile isSpaceChar).reverse.dropWhile isSpaceChar).reverse

/-- str.lower, ASCII regime. -/
def pyLower (l : List Char) : List Char :=
  l.map Char.toLower

/-- str.replace of each single space character by a hyphen
(music_service.py line 168). -/
def replaceSpaceHyphen (l : List Char) : List Char :=
  l.map (fun c => if c = ' ' then '-' else c)

/-- String-level str.strip, used by Track.from_element. -/
def pyStripS (s : String) : String :=
  String.mk (pyStrip s.data)

/-- Splitting a character list on the dot character, as bytes.split does in
the idna codec fast path. -/
def splitOnDot : List Char → List (List Char)
  | [] => [[]]
  | c :: rest =>
    let r := splitOnDot rest
    if c = '.' then [] :: r
    else
      match r with
      | [] => [[c]]
      | h :: t => (c :: h) :: t

/-- Models CPython's idna codec encode (encodings/idna.py, Codec.encode) on
the inputs this repository can produce: empty input is returned unchanged
(the codec's empty-input fast return), pure-ASCII input is validated
label-wise (every non-final dot-separated label nonempty and under 64
characters, the final label under 64 characters) and returned unchanged,
and the nameprep/punycode branch for non-ASCII input is modelled as
failure, which build_search_query turns into the raw-slug fallback. -/
def encodeIdna (s : String) : Option String :=
  if s.data.isEmpty then some "" else
  if s.data.all (fun c => c.toNat < 128) then
    let labels := splitOnDot s.data
    if (labels.dropLast.all fun lb => decide (0 < lb.length) && decide (lb.length < 64)) &&
        decide ((labels.getLastD []).length < 64) then
      some s
    else none
  else none

/-- Music.BASE_URL. -/
def BASE_URL : String := "vuxo7.com"

/-- The slug computed inside Music.build_search_query (lines 167 and 168):
remove characters that are neither word characters nor whitespace, strip,
lower-case, then replace each space character by a hyphen. -/
def build_slug (keyword : String) : String :=
  String.mk (replaceSpaceHyphen (pyLower (pyStrip (reSubNonWordSpace keyword.data))))

/-- Music.build_search_query: idna-encode the slug, falling back to the raw
slug when encoding raises, and assemble the subdomain-routed URL. -/
def build_search_query (keyword : String) : String :=
  let query := build_slug keyword
  let subdomain := (encodeIdna query).getD query
  "https://" ++ subdomain ++ "." ++ BASE_URL

/-- Accumulator-based whitespace-run word splitter; the accumulator holds
the current word reversed. -/
def wordsAux : List Char → List Char → List (List Char)
  | [], acc => if acc.isEmpty then [] else [acc.reverse]
  | c :: rest, acc =>
    if isSpaceChar c then
      if acc.isEmpty then wordsAux rest [] else acc.reverse :: wordsAux rest []
    else wordsAux rest (c :: acc)

/-- The maximal whitespace-separated words of a character list. -/
def wordsOf (l : List Char) : List (List Char) :=
  wordsAux l []

/-- The slug as described by the specification's words: strip characters
that are neither word characters nor whitespace, trim, lower-case, and
replace each internal whitespace run with a single hyphen. -/
def slugPerSpec (keyword : String) : String :=
  String.mk (List.intercalate ['-']
    (wordsOf (pyLower (pyStrip (reSubNonWordSpace keyword.data)))))

/-- The slug as described by the amended wording: strip characters that are
neither word characters nor whitespace, trim, then in one pass lower-case
every character and turn each space character into a hyphen. -/
def slugPerSpecAmended (keyword : String) : String :=
  String.mk ((pyStrip (reSubNonWordSpace keyword.data)).map
    (fun c => if c = ' ' then '-' else Char.toLower c))

/-- Track (music_service.py, dataclass). -/
structure Track where
  index : Nat
  name : String
  title : String
  performer : String
  audio_url : String
  deriving DecidableEq, Repr

/-- The plain field mapping of a Track, as passed to Track.from_dict. -/
structure TrackDict where
  index : Nat
  name : String
  title : String
  performer : String
  audio_url : String
  deriving DecidableEq, Repr

/-- Track.from_dict: rebuild a Track from its field mapping; int() applied
to the integer index field is the identity. -/
def Track.from_dict (data : TrackDict) : Track :=
  { index := data.index
    name := data.name
    title := data.title
    performer := data.performer
    audio_url := data.audio_url }

/-- The field mapping of this Track, the input the round-trip property
feeds to Track.from_dict. -/
def Track.to_dict (t : Track) : TrackDict :=
  { index := t.index
    name := t.name
    title := t.title
    performer := t.performer
    audio_url := t.audio_url }

/-- One list item of the playlist container, at the interface the parser
reads it through: the text of its playlist-name-artist descendant if one is
found, the text of its playlist-name-title descendant if one is found, and
for the playlist-play descendant, when found as a markup element, its
data-url attribute value if present. -/
structure Item where
  artistText : Option String
  titleText : Option String
  playDataUrl : Option (Option String)
  deriving DecidableEq, Repr

/-- The errors that can escape the modelled operations. valueError and
typeError are the raw Python exceptions raised by the parser,
musicServiceError is MusicServiceError, and retryError is tenacity's
RetryError wrapping the final attempt's exception. -/
inductive Exc where
  | valueError (msg : String)
  | typeError (msg : String)
  | musicServiceError (msg : String)
  | retryError (last : Exc)
  deriving DecidableEq, Repr

/-- isinstance(e, MusicServiceError). -/
def isMusicServiceError : Exc → Bool
  | .musicServiceError _ => true
  | _ => false

/-- The specification's ParseError kind: the structural markup failures,
raised in the source as ValueError or TypeError. -/
def isParseError : Exc → Bool
  | .valueError _ => true
  | .typeError _ => true
  | _ => false

/-- Track.from_element: reject an item whose artist or title element is
missing (ValueError) or whose play control is not a markup element
(TypeError); otherwise build the Track from the stripped texts, with the
data-url attribute defaulting to the empty string. -/
def Track.from_element (element : Item) (index : Nat) : Except Exc Track :=
  match element.artistText, element.titleText with
  | some artist, some title =>
    match element.playDataUrl with
    | none => .error (.typeError "Could not find audio URL element")
    | some dataUrl =>
      .ok { index := index
            name := pyStripS artist ++ " - " ++ pyStripS title
            title := pyStripS title
            performer := pyStripS artist
            audio_url := dataUrl.getD "" }
  | _, _ => .error (.valueError "Could not find artist name element")

/-- Whether an item lacks one of the three required sub-elements. -/
def itemMalformed (it : Item) : Bool :=
  it.artistText.isNone || it.titleText.isNone || it.playDataUrl.isNone

/-- The list comprehension of Music._parse_tracks lines 131 to 134:
convert the items in document order, numbering them from the given start
index, aborting at the first item Track.from_element rejects. -/
def parseItemsFrom : Nat → List Item → Except Exc (List Track)
  | _, [] => .ok []
  | i, item :: rest =>
    match Track.from_element item i with
    | .error e => .error e
    | .ok t =>
      match parseItemsFrom (i + 1) rest with
      | .error e => .error e
      | .ok ts => .ok (t :: ts)

/-- A fetched page, at the interface the parser reads it through: the list
of li children of the ul.playlist container when that container is found. -/
structure Page where
  playlist : Option (List Item)
  deriving DecidableEq, Repr

/-- The parsing step of Music._parse_tracks (lines 126 to 134): a missing
playlist container is a TypeError for the whole page; otherwise the items
are converted in order starting at index 0. -/
def parse_page (p : Page) : Except Exc (List Track) :=
  match p.playlist with
  | none => .error (.typeError "Could not find playlist element")
  | some items => parseItemsFrom 0 items

/-- The outcome of one HTTP GET of a listing page: either a network-layer
failure (aiohttp.ClientError, including the ClientResponseError that
raise_for_status raises on a non-2xx status, or TimeoutError), carrying the
exception's text, or the fetched page. -/
inductive FetchOutcome where
  | netError (msg : String)
  | page (p : Page)

/-- One attempt of the decorated Music._parse_tracks body. The second
component counts the HTTP GETs the attempt performs. With no active
session the attempt raises MusicServiceError before fetching; a
network-layer failure is caught and wrapped into MusicServiceError; parse
failures propagate unwrapped (the except clause catches only
aiohttp.ClientError and TimeoutError). -/
def parse_tracks_attempt (hasSession : Bool) (fetched : FetchOutcome) :
    Except Exc (List Track) × Nat :=
  if hasSession then
    match fetched with
    | .netError msg => (.error (.musicServiceError ("Failed to search music: " ++ msg)), 1)
    | .page p => (parse_page p, 1)
  else
    (.error (.musicServiceError "Failed to initialize session"), 0)

/-- tenacity's retry(stop=stop_after_attempt(3), wait=wait_exponential(...))
with its default reraise=False: run up to three attempts, return the first
success, and after three failures raise RetryError wrapping the last
attempt's exception. The attempt oracle is indexed by the attempt number;
the second component accumulates the attempts' counters. Wait times are
not observable in any claim and are not modelled. -/
def tenacityRetry3 {α : Type} (f : Nat → Except Exc α × Nat) : Except Exc α × Nat :=
  match f 0, f 1, f 2 with
  | (.ok a, c0), _, _ => (.ok a, c0)
  | (.error _, c0), (.ok a, c1), _ => (.ok a, c0 + c1)
  | (.error _, c0), (.error _, c1), (.ok a, c2) => (.ok a, c0 + c1 + c2)
  | (.error _, c0), (.error _, c1), (.error e, c2) => (.error (.retryError e), c0 + c1 + c2)

/-- Music._parse_tracks: the retried fetch-and-parse. -/
def parse_tracks (hasSession : Bool) (fetch : Nat → FetchOutcome) :
    Except Exc (List Track) × Nat :=
  tenacityRetry3 (fun n => parse_tracks_attempt hasSession (fetch n))

/-- Music.__init__: the session handle starts as None. -/
def initialSession : Bool := false

/-- Music.connect: idempotently ensure a session exists. -/
def connect (_hasSession : Bool) : Bool := true

/-- Music.disconnect: close and clear the session handle. -/
def disconnect (_hasSession : Bool) : Bool := false

/-- Music.search: raise MusicServiceError directly (outside any retry
wrapper) when no session is active, otherwise build the query URL and run
the retried fetch-and-parse against it. The fetch oracle abstracts the
network's responses for the built URL; the second component counts HTTP
GETs. -/
def search (hasSession : Bool) (keyword : String) (fetch : Nat → FetchOutcome) :
    Except Exc (List Track) × Nat :=
  if hasSession then
    let _url := build_search_query keyword
    parse_tracks hasSession fetch
  else
    (.error (.musicServiceError "Failed to initialize session"), 0)

/-- Music.get_top_hits: the retried fetch-and-parse against the fixed base
URL, with no session precheck of its own. -/
def get_top_hits (hasSession : Bool) (fetch : Nat → FetchOutcome) :
    Except Exc (List Track) × Nat :=
  parse_tracks hasSession fetch

/-- The 50 MiB ceiling of Music.get_audio_bytes. -/
def max_size : Nat := 50 * 1024 * 1024

/-- The outcome of one HTTP GET of a track's audio URL: either a
network-layer failure (aiohttp.ClientError, including the non-2xx case
raised by raise_for_status, or TimeoutError), or a response carrying the
advertised content length, if any, and the body. -/
inductive AudioOutcome where
  | netError (msg : String)
  | response (contentLength : Option Nat) (body : List Nat)

/-- One attempt of the decorated Music.get_audio_bytes body. The second
component counts how many times the attempt read a response body. With no
active session the attempt raises MusicServiceError; a network-layer
failure is caught and wrapped; a truthy advertised content length above
the ceiling raises MusicServiceError before the body is read; otherwise
the full body is read and returned. -/
def get_audio_bytes_attempt (hasSession : Bool) (fetched : AudioOutcome) :
    Except Exc (List Nat) × Nat :=
  if hasSession then
    match fetched with
    | .netError _ => (.error (.musicServiceError "Failed to download audio"), 0)
    | .response contentLength body =>
      match contentLength with
      | some n =>
        if n ≠ 0 ∧ max_size < n then
          (.error (.musicServiceError ("File too large: " ++ toString n ++ " bytes")), 0)
        else
          (.ok body, 1)
      | none => (.ok body, 1)
  else
    (.error (.musicServiceError "Failed to initialize session"), 0)

/-- Music.get_audio_bytes: the retried bounded download. -/
def get_audio_bytes (hasSession : Bool) (fetch : Nat → AudioOutcome) :
    Except Exc (List Nat) × Nat :=
  tenacityRetry3 (fun n => get_audio_bytes_attempt hasSession (fetch n))

/-- aiogram.types.InlineKeyboardButton, restricted to the fields
keyboards.py sets. -/
structure InlineKeyboardButton where
  text : String
  callback_data : String
  deriving DecidableEq, Repr

/-- keyboards.get_search_results_keyboard: one single-button row per track
among the first ten, the button text numbering the track from 1 and the
callback data encoding the search identifier and the 0-based position. -/
def get_search_results_keyboard (tracks : List Track) (search_id : Nat) :
    List (List InlineKeyboardButton) :=
  (tracks.take 10).enum.map fun it =>
    [{ text := toString (it.1 + 1) ++ ". " ++ it.2.performer ++ " - " ++ it.2.title
       callback_data := "track:get:" ++ toString search_id ++ ":" ++ toString it.1 }]

/-- The lookup of handlers.track_callback_handler: fetch the cached result
list for the search identifier (answering that results are stale when the
identifier is unknown), then index it with the track index from the
callback data (an out-of-range index raises and is caught by the broad
handler). The history is modelled as the list of cached result sets in key
order, keys being assigned consecutively from 0. -/
def track_callback_lookup (searchHistory : List (List Track))
    (searchId trackIndex : Nat) : Option Track :=
  match searchHistory.get? searchId with
  | none => none
  | some tracks => tracks.get? trackIndex

/-! ### Helper lemmas about the retry combinator and the element parser -/

theorem tenacityRetry3_first_ok {α : Type} (f : Nat → Except Exc α × Nat) (a : α) (c : Nat)
    (h : f 0 = (.ok a, c)) : tenacityRetry3 f = (.ok a, c) := by
  unfold tenacityRetry3
  rw [h]

theorem tenacityRetry3_allError {α : Type} (f : Nat → Except Exc α × Nat)
    (e0 e1 e2 : Exc) (c0 c1 c2 : Nat)
    (h0 : f 0 = (.error e0, c0)) (h1 : f 1 = (.error e1, c1)) (h2 : f 2 = (.error e2, c2)) :
    tenacityRetry3 f = (.error (.retryError e2), c0 + c1 + c2) := by
  unfold tenacityRetry3
  rw [h0, h1, h2]

theorem parse_tracks_attempt_snd (fetched : FetchOutcome) :
    (parse_tracks_attempt true fetched).2 = 1 := by
  cases fetched <;> rfl

theorem parse_tracks_attempt_pair (fetched : FetchOutcome) (e : Exc)
    (h : (parse_tracks_attempt true fetched).1 = .error e) :
    parse_tracks_attempt true fetched = (.error e, 1) := by
  have h2 := parse_tracks_attempt_snd fetched
  calc parse_tracks_attempt true fetched
      = ((parse_tracks_attempt true fetched).1, (parse_tracks_attempt true fetched).2) := rfl
    _ = (.error e, 1) := by rw [h, h2]

/-! ### C9: Track round-trip through its field mapping -/

/-- C9: constructing a new Track via from_dict from the mapping of a
Track's own fields yields a Track equal to the original in every field. -/
theorem c9_from_dict_roundtrip (t : Track) : Track.from_dict (Track.to_dict t) = t := rfl

/-! ### C3: search in the Disconnected state -/

/-- C3: on a client in the Disconnected state (fresh instance, or after
disconnect), search fails with MusicServiceError and performs zero HTTP
GETs, whatever the network oracle would have answered: the session check
precedes any fetch. -/
theorem c3_search_disconnected (keyword : String) (fetch : Nat → FetchOutcome) (s : Bool) :
    search initialSession keyword fetch =
      (.error (.musicServiceError "Failed to initialize session"), 0) ∧
    search (disconnect s) keyword fetch =
      (.error (.musicServiceError "Failed to initialize session"), 0) :=
  ⟨rfl, rfl⟩

/-! ### C5: fields of a successfully constructed Track -/

/-- C5 counterexample: Track.from_element succeeds on an item whose artist
element carries empty text, producing a Track whose performer field is the
empty string — refuting that performer is never empty on successful
construction. -/
theorem c5_counterexample :
    Track.from_element
        { artistText := some "", titleText := some "Song", playDataUrl := some (some "u") } 0 =
      .ok { index := 0, name := " - Song", title := "Song", performer := "", audio_url := "u" } ∧
    ({ index := 0, name := " - Song", title := "Song", performer := "", audio_url := "u" }
        : Track).performer.length = 0 :=
  ⟨rfl, rfl⟩

/-- C5 amended: every Track successfully constructed from a markup item has
title and performer equal to the trimmed extracted texts — each possibly
empty when the extracted text strips to nothing — and name equal to the
string performer, space, hyphen, space, title built from those fields. -/
theorem c5_amended (item : Item) (i : Nat) (tr : Track)
    (h : Track.from_element item i = .ok tr) :
    ∃ a t, item.artistText = some a ∧ item.titleText = some t ∧
      tr.performer = pyStripS a ∧ tr.title = pyStripS t ∧
      tr.name = tr.performer ++ " - " ++ tr.title := by
  obtain ⟨artistText, titleText, playDataUrl⟩ := item
  cases artistText with
  | none => simp [Track.from_element] at h
  | some a =>
    cases titleText with
    | none => simp [Track.from_element] at h
    | some t =>
      cases playDataUrl with
      | none => simp [Track.from_element] at h
      | some d =>
        rw [show Track.from_element ⟨some a, some t, some d⟩ i =
            .ok { index := i, name := pyStripS a ++ " - " ++ pyStripS t,
                  title := pyStripS t, performer := pyStripS a,
                  audio_url := d.getD "" } from rfl] at h
        injection h with h
        subst h
        exact ⟨a, t, rfl, rfl, rfl, rfl, rfl⟩

/-- C5 amended witness at a concrete well-formed item with padded artist
text. -/
theorem c5_amended_witness :
    Track.from_element
        { artistText := some " A ", titleText := some "B", playDataUrl := some (some "u") } 0 =
      .ok { index := 0, name := "A - B", title := "B", performer := "A", audio_url := "u" } ∧
    ∃ a t,
      ({ artistText := some " A ", titleText := some "B", playDataUrl := some (some "u") }
          : Item).artistText = some a ∧
      ({ artistText := some " A ", titleText := some "B", playDataUrl := some (some "u") }
          : Item).titleText = some t ∧
      ({ index := 0, name := "A - B", title := "B", performer := "A", audio_url := "u" }
          : Track).performer = pyStripS a ∧
      ({ index := 0, name := "A - B", title := "B", performer := "A", audio_url := "u" }
          : Track).title = pyStripS t ∧
      ({ index := 0, name := "A - B", title := "B", performer := "A", audio_url := "u" }
          : Track).name =
        ({ index := 0, name := "A - B", title := "B", performer := "A", audio_url := "u" }
            : Track).performer ++ " - " ++
          ({ index := 0, name := "A - B", title := "B", performer := "A", audio_url := "u" }
              : Track).title :=
  ⟨rfl, c5_amended _ 0 _ rfl⟩

/-! ### C1: what escapes the client when all retries fail -/

/-- C1 counterexample: a network failure persisting over all three attempts
escapes Music.search as tenacity's RetryError wrapping the last attempt's
MusicServiceError — a retry-library exception, not the MusicServiceError
kind, crosses the client boundary. -/
theorem c1_counterexample :
    (search true "x" (fun _ => .netError "boom")).1 =
      .error (.retryError (.musicServiceError "Failed to search music: boom")) ∧
    isMusicServiceError (.retryError (.musicServiceError "Failed to search music: boom")) =
      false :=
  ⟨rfl, rfl⟩

/-- C1 amended: when every attempt of the retried fetch-and-parse fails,
the exception escaping search and get_top_hits is tenacity's RetryError
wrapping the last attempt's exception — network-layer failures having been
wrapped into MusicServiceError attempt by attempt, parse failures
propagating raw — and that escaping exception is not itself the
MusicServiceError kind; search with no active session still fails directly
with MusicServiceError, before any fetch. -/
theorem c1_amended (keyword : String) (fetch : Nat → FetchOutcome) (e0 e1 e2 : Exc)
    (h0 : (parse_tracks_attempt true (fetch 0)).1 = .error e0)
    (h1 : (parse_tracks_attempt true (fetch 1)).1 = .error e1)
    (h2 : (parse_tracks_attempt true (fetch 2)).1 = .error e2) :
    (search true keyword fetch).1 = .error (.retryError e2) ∧
    isMusicServiceError (.retryError e2) = false ∧
    (get_top_hits true fetch).1 = .error (.retryError e2) ∧
    search false keyword fetch =
      (.error (.musicServiceError "Failed to initialize session"), 0) := by
  have hall : parse_tracks true fetch = (.error (.retryError e2), 3) :=
    tenacityRetry3_allError _ e0 e1 e2 1 1 1
      (parse_tracks_attempt_pair _ _ h0)
      (parse_tracks_attempt_pair _ _ h1)
      (parse_tracks_attempt_pair _ _ h2)
  refine ⟨?_, rfl, ?_, rfl⟩
  · show (parse_tracks true fetch).1 = _
    rw [hall]
  · show (parse_tracks true fetch).1 = _
    rw [hall]

/-- C1 amended witness: a persistent network failure, attempt hypotheses
discharged concretely. -/
theorem c1_amended_witness :
    (parse_tracks_attempt true ((fun _ => FetchOutcome.netError "boom") 0)).1 =
      .error (.musicServiceError "Failed to search music: boom") ∧
    (search true "q" (fun _ => FetchOutcome.netError "boom")).1 =
      .error (.retryError (.musicServiceError "Failed to search music: boom")) ∧
    isMusicServiceError
        (.retryError (.musicServiceError "Failed to search music: boom")) = false ∧
    (get_top_hits true (fun _ => FetchOutcome.netError "boom")).1 =
      .error (.retryError (.musicServiceError "Failed to search music: boom")) ∧
    search false "q" (fun _ => FetchOutcome.netError "boom") =
      (.error (.musicServiceError "Failed to initialize session"), 0) :=
  ⟨rfl, c1_amended "q" (fun _ => FetchOutcome.netError "boom") _ _ _ rfl rfl rfl⟩

/-! ### C2: the 50 MiB ceiling on the advertised content length -/

/-- C2 counterexample: with an advertised content length of 60000000 bytes
the decorated get_audio_bytes retries the deterministic size failure and
the escaping exception is tenacity's RetryError wrapping the
MusicServiceError, not the MusicServiceError kind itself; the body is
still never read. -/
theorem c2_counterexample :
    get_audio_bytes true (fun _ => .response (some 60000000) [7]) =
      (.error (.retryError (.musicServiceError "File too large: 60000000 bytes")), 0) ∧
    isMusicServiceError (.retryError (.musicServiceError "File too large: 60000000 bytes")) =
      false :=
  ⟨rfl, rfl⟩

/-- C2 amended: an advertised content length above the 50 MiB ceiling makes
every attempt fail with MusicServiceError before the body is read, so the
decorated operation ends in RetryError wrapping that MusicServiceError with
zero body reads; an advertised length at or below the ceiling, or an absent
one, lets the first attempt read and return the full body. -/
theorem c2_amended (n : Nat) (contentLength : Option Nat) (body : List Nat)
    (hbig : max_size < n)
    (hsmall : ∀ m, contentLength = some m → m ≤ max_size) :
    get_audio_bytes true (fun _ => .response (some n) body) =
      (.error (.retryError
          (.musicServiceError ("File too large: " ++ toString n ++ " bytes"))), 0) ∧
    get_audio_bytes true (fun _ => .response contentLength body) = (.ok body, 1) := by
  have hne : n ≠ 0 := by
    intro h0
    rw [h0] at hbig
    exact absurd hbig (Nat.not_lt_zero _)
  constructor
  · have hA : get_audio_bytes_attempt true (.response (some n) body) =
        (.error (.musicServiceError ("File too large: " ++ toString n ++ " bytes")), 0) := by
      simp [get_audio_bytes_attempt, hne, hbig]
    exact tenacityRetry3_allError _ _ _ _ 0 0 0 hA hA hA
  · cases contentLength with
    | none => exact tenacityRetry3_first_ok _ body 1 rfl
    | some m =>
      have hm : m ≤ max_size := hsmall m rfl
      have hcond : ¬(m ≠ 0 ∧ max_size < m) := by
        rintro ⟨-, hlt⟩
        exact absurd hlt (Nat.not_lt.mpr hm)
      refine tenacityRetry3_first_ok _ body 1 ?_
      simp [get_audio_bytes_attempt, hcond]

/-- C2 amended witness: oversized and in-bounds advertised lengths, the
hypotheses discharged at 60000000 and 1000. -/
theorem c2_amended_witness :
    max_size < 60000000 ∧
    (∀ m, (some 1000 : Option Nat) = some m → m ≤ max_size) ∧
    get_audio_bytes true (fun _ => .response (some 60000000) [1, 2]) =
      (.error (.retryError
          (.musicServiceError ("File too large: " ++ toString 60000000 ++ " bytes"))), 0) ∧
    get_audio_bytes true (fun _ => .response (some 1000) [1, 2]) = (.ok [1, 2], 1) := by
  have hs : ∀ m, (some 1000 : Option Nat) = some m → m ≤ max_size := by
    intro m h
    injection h with h
    subst h
    decide
  have := c2_amended 60000000 (some 1000) [1, 2] (by decide) hs
  exact ⟨by decide, hs, this.1, this.2⟩

/-! ### C4: one malformed item aborts the whole page -/

theorem from_element_error_of_malformed (it : Item) (i : Nat)
    (h : itemMalformed it = true) :
    ∃ e, Track.from_element it i = .error e ∧ isParseError e = true := by
  obtain ⟨artistText, titleText, playDataUrl⟩ := it
  cases artistText with
  | none => exact ⟨.valueError "Could not find artist name element", rfl, rfl⟩
  | some a =>
    cases titleText with
    | none => exact ⟨.valueError "Could not find artist name element", rfl, rfl⟩
    | some t =>
      cases playDataUrl with
      | none => exact ⟨.typeError "Could not find audio URL element", rfl, rfl⟩
      | some d => simp [itemMalformed] at h

theorem from_element_ok_of_wellformed (it : Item) (i : Nat)
    (h : itemMalformed it = false) :
    ∃ tr, Track.from_element it i = .ok tr := by
  obtain ⟨artistText, titleText, playDataUrl⟩ := it
  cases artistText with
  | none => simp [itemMalformed] at h
  | some a =>
    cases titleText with
    | none => simp [itemMalformed] at h
    | some t =>
      cases playDataUrl with
      | none => simp [itemMalformed] at h
      | some d => exact ⟨_, rfl⟩

theorem parseItemsFrom_error_of_malformed (items : List Item) :
    ∀ i, (∃ it ∈ items, itemMalformed it = true) →
      ∃ e, parseItemsFrom i items = .error e ∧ isParseError e = true := by
  induction items with
  | nil =>
    intro i h
    simp at h
  | cons hd tl ih =>
    intro i h
    by_cases hm : itemMalformed hd = true
    · obtain ⟨e, he, hp⟩ := from_element_error_of_malformed hd i hm
      exact ⟨e, by simp [parseItemsFrom, he], hp⟩
    · obtain ⟨tr, htr⟩ := from_element_ok_of_wellformed hd i (by simpa using hm)
      obtain ⟨it, hit, hmal⟩ := h
      rcases List.mem_cons.mp hit with rfl | hin
      · exact absurd hmal hm
      · obtain ⟨e, he, hp⟩ := ih (i + 1) ⟨it, hin, hmal⟩
        exact ⟨e, by simp [parseItemsFrom, htr, he], hp⟩

/-- C4: a page whose playlist container holds any item lacking a required
sub-element (performer, title, or play control) makes the parsing step fail
with a whole-page parse error — no partial result, no skip-and-continue —
even when the other items are well-formed. -/
theorem c4_malformed_item_aborts_page (items : List Item) (it : Item)
    (hmem : it ∈ items) (hmal : itemMalformed it = true) :
    ∃ e, parse_page { playlist := some items } = .error e ∧ isParseError e = true := by
  obtain ⟨e, he, hp⟩ := parseItemsFrom_error_of_malformed items 0 ⟨it, hmem, hmal⟩
  exact ⟨e, by simp [parse_page, he], hp⟩

/-- A well-formed playlist item used by concrete witnesses. -/
def itemGood : Item :=
  { artistText := some "A", titleText := some "T", playDataUrl := some (some "u") }

/-- A playlist item whose title element is missing. -/
def itemNoTitle : Item :=
  { artistText := some "A", titleText := none, playDataUrl := some (some "u") }

/-- C4 witness: the page good item, missing-title item, good item fails as
a whole. -/
theorem c4_witness :
    itemNoTitle ∈ [itemGood, itemNoTitle, itemGood] ∧
    itemMalformed itemNoTitle = true ∧
    ∃ e, parse_page { playlist := some [itemGood, itemNoTitle, itemGood] } = .error e ∧
      isParseError e = true :=
  ⟨List.mem_cons_of_mem _ (List.mem_cons_self _ _), rfl,
    c4_malformed_item_aborts_page _ itemNoTitle
      (List.mem_cons_of_mem _ (List.mem_cons_self _ _)) rfl⟩

/-! ### C8: result-set indices are contiguous and positional -/

theorem from_element_index (it : Item) (i : Nat) (tr : Track)
    (h : Track.from_element it i = .ok tr) : tr.index = i := by
  obtain ⟨artistText, titleText, playDataUrl⟩ := it
  cases artistText with
  | none => simp [Track.from_element] at h
  | some a =>
    cases titleText with
    | none => simp [Track.from_element] at h
    | some t =>
      cases playDataUrl with
      | none => simp [Track.from_element] at h
      | some d =>
        rw [show Track.from_element ⟨some a, some t, some d⟩ i =
            .ok { index := i, name := pyStripS a ++ " - " ++ pyStripS t,
                  title := pyStripS t, performer := pyStripS a,
                  audio_url := d.getD "" } from rfl] at h
        injection h with h
        subst h
        rfl

theorem parseItemsFrom_indices (items : List Item) :
    ∀ i ts, parseItemsFrom i items = .ok ts →
      ∀ j (hj : j < ts.length), (ts.get ⟨j, hj⟩).index = i + j := by
  induction items with
  | nil =>
    intro i ts h j hj
    simp [parseItemsFrom] at h
    subst h
    simp at hj
  | cons hd tl ih =>
    intro i ts h j hj
    cases he : Track.from_element hd i with
    | error e => simp [parseItemsFrom, he] at h
    | ok tr =>
      cases hr : parseItemsFrom (i + 1) tl with
      | error e => simp [parseItemsFrom, he, hr] at h
      | ok ts' =>
        have hts : tr :: ts' = ts := by
          have h' := h
          simp [parseItemsFrom, he, hr] at h'
          exact h'
        subst hts
        cases j with
        | zero =>
          simpa using from_element_index hd i tr he
        | succ j2 =>
          have hj2 : j2 < ts'.length := by simpa using hj
          have hrec := ih (i + 1) ts' hr j2 hj2
          have hg : ((tr :: ts').get ⟨j2 + 1, hj⟩) = ts'.get ⟨j2, hj2⟩ := rfl
          rw [hg, hrec]
          omega

theorem tenacityRetry3_ok_cases {α : Type} (f : Nat → Except Exc α × Nat) (P : α → Prop)
    (hall : ∀ n a, (f n).1 = Except.ok a → P a) (a : α)
    (h : (tenacityRetry3 f).1 = Except.ok a) : P a := by
  unfold tenacityRetry3 at h
  rcases hf0 : f 0 with ⟨r0, c0⟩
  rcases hf1 : f 1 with ⟨r1, c1⟩
  rcases hf2 : f 2 with ⟨r2, c2⟩
  rw [hf0, hf1, hf2] at h
  cases r0 with
  | ok a0 =>
    simp at h
    subst h
    exact hall 0 a0 (by rw [hf0])
  | error e0 =>
    cases r1 with
    | ok a1 =>
      simp at h
      subst h
      exact hall 1 a1 (by rw [hf1])
    | error e1 =>
      cases r2 with
      | ok a2 =>
        simp at h
        subst h
        exact hall 2 a2 (by rw [hf2])
      | error e2 => simp at h

/-- C8: every result set returned by a successful search or top-hits call
has contiguous indices starting at 0: each Track's index equals its
position in the returned sequence. -/
theorem c8_indices_contiguous (keyword : String) (fetch : Nat → FetchOutcome)
    (tracks : List Track)
    (h : (search true keyword fetch).1 = .ok tracks ∨
      (get_top_hits true fetch).1 = .ok tracks) :
    ∀ j (hj : j < tracks.length), (tracks.get ⟨j, hj⟩).index = j := by
  have hpt : (parse_tracks true fetch).1 = .ok tracks := by
    rcases h with h | h <;> exact h
  refine tenacityRetry3_ok_cases _
    (fun ts => ∀ j (hj : j < ts.length), (ts.get ⟨j, hj⟩).index = j) ?_ tracks hpt
  intro n ts hok
  rcases hfn : fetch n with msg | p
  · rw [hfn] at hok
    simp [parse_tracks_attempt] at hok
  · rw [hfn] at hok
    obtain ⟨pl⟩ := p
    cases pl with
    | none => simp [parse_tracks_attempt, parse_page] at hok
    | some items =>
      have hpp : parseItemsFrom 0 items = .ok ts := by
        simpa [parse_tracks_attempt, parse_page] using hok
      intro j hj
      simpa using parseItemsFrom_indices items 0 ts hpp j hj

/-- A second well-formed playlist item, with no data-url attribute on its
play control. -/
def itemGood2 : Item :=
  { artistText := some "B", titleText := some "S", playDataUrl := some none }

/-- A network oracle always answering with a two-item playlist page. -/
def fetchExample : Nat → FetchOutcome :=
  fun _ => .page { playlist := some [itemGood, itemGood2] }

/-- The track list fetchExample parses to. -/
def tracksExample : List Track :=
  [{ index := 0, name := "A - T", title := "T", performer := "A", audio_url := "u" },
   { index := 1, name := "B - S", title := "S", performer := "B", audio_url := "" }]

/-- C8 witness: a successful two-track search, conclusion instantiated at
both positions. -/
theorem c8_witness :
    ((search true "q" fetchExample).1 = .ok tracksExample ∨
      (get_top_hits true fetchExample).1 = .ok tracksExample) ∧
    (tracksExample.get ⟨0, by decide⟩).index = 0 ∧
    (tracksExample.get ⟨1, by decide⟩).index = 1 :=
  ⟨Or.inl rfl,
    c8_indices_contiguous "q" fetchExample tracksExample (Or.inl rfl) 0 (by decide),
    c8_indices_contiguous "q" fetchExample tracksExample (Or.inl rfl) 1 (by decide)⟩

/-! ### C10: search-results keyboard and callback lookup -/

/-- C10: the search-results keyboard holds exactly min(number of tracks, 10)
buttons, one single-button row per offered track; the button at 0-based
position i carries the callback data string track:get:search_id:i and shows
track i, the very element the callback handler's lookup retrieves for that
search identifier and index. -/
theorem c10_keyboard_callbacks (tracks : List Track) (sid : Nat)
    (history : List (List Track)) (hsid : history.get? sid = some tracks) :
    (get_search_results_keyboard tracks sid).length = min tracks.length 10 ∧
    ∀ i (hi : i < (get_search_results_keyboard tracks sid).length),
      ∃ hlt : i < tracks.length,
        (get_search_results_keyboard tracks sid).get ⟨i, hi⟩ =
          [{ text := toString (i + 1) ++ ". " ++ (tracks.get ⟨i, hlt⟩).performer ++ " - " ++
               (tracks.get ⟨i, hlt⟩).title
             callback_data := "track:get:" ++ toString sid ++ ":" ++ toString i }] ∧
        track_callback_lookup history sid i = some (tracks.get ⟨i, hlt⟩) := by
  have hlen : (get_search_results_keyboard tracks sid).length = min tracks.length 10 := by
    simp [get_search_results_keyboard, Nat.min_comm]
  refine ⟨hlen, ?_⟩
  intro i hi
  have hi2 : i < min tracks.length 10 := hlen ▸ hi
  have hlt : i < tracks.length := lt_of_lt_of_le hi2 (Nat.min_le_left _ _)
  refine ⟨hlt, ?_, ?_⟩
  · rw [List.get_eq_getElem]
    simp [get_search_results_keyboard, List.get_eq_getElem]
  · have hsid2 : history[sid]? = some tracks := by simpa using hsid
    have hl : track_callback_lookup history sid i = tracks.get? i := by
      simp [track_callback_lookup, hsid2]
    rw [hl, List.get?_eq_get hlt]

/-- C10 witness: a one-entry history holding the two-track example list,
instantiated at button position 0. -/
theorem c10_witness :
    [tracksExample].get? 0 = some tracksExample ∧
    (get_search_results_keyboard tracksExample 0).length = min tracksExample.length 10 ∧
    ∃ hlt : 0 < tracksExample.length,
      (get_search_results_keyboard tracksExample 0).get ⟨0, by decide⟩ =
        [{ text := toString (0 + 1) ++ ". " ++ (tracksExample.get ⟨0, hlt⟩).performer ++
             " - " ++ (tracksExample.get ⟨0, hlt⟩).title
           callback_data := "track:get:" ++ toString 0 ++ ":" ++ toString 0 }] ∧
      track_callback_lookup [tracksExample] 0 0 = some (tracksExample.get ⟨0, hlt⟩) :=
  ⟨rfl, (c10_keyboard_callbacks tracksExample 0 [tracksExample] rfl).1,
    (c10_keyboard_callbacks tracksExample 0 [tracksExample] rfl).2 0 (by decide)⟩

/-! ### C6: all-punctuation keywords -/

/-- C6 counterexample: for an all-punctuation keyword the returned URL is
the degenerate one the claim states, but the empty slug's IDNA encoding
succeeds — the codec returns empty input unchanged — so the raw-slug
fallback for failed encodings is never taken, refuting the claimed
mechanism. -/
theorem c6_counterexample :
    build_search_query "!!!" = "https://.vuxo7.com" ∧
    build_slug "!!!" = "" ∧
    encodeIdna (build_slug "!!!") = some "" ∧
    encodeIdna (build_slug "!!!") ≠ none := by
  refine ⟨rfl, rfl, rfl, ?_⟩
  intro h
  rw [show encodeIdna (build_slug "!!!") = some "" from rfl] at h
  exact Option.noConfusion h

/-- C6 amended: for every keyword of ASCII characters that are neither word
characters nor whitespace, build_search_query returns exactly the string
https followed by :// followed by a dot and the fixed base domain, without
raising; the empty slug is passed through the IDNA transform successfully
— the codec's empty-input fast path returns it unchanged — so the raw-slug
fallback plays no part. -/
theorem c6_amended (keyword : String)
    (h : ∀ c ∈ keyword.data, c.toNat < 128 ∧ isWordChar c = false ∧ isSpaceChar c = false) :
    build_search_query keyword = "https://.vuxo7.com" ∧
    encodeIdna (build_slug keyword) = some "" := by
  have hfilter : reSubNonWordSpace keyword.data = [] := by
    show List.filter (fun c => isWordChar c || isSpaceChar c) keyword.data = []
    rw [List.filter_eq_nil_iff]
    intro a ha
    obtain ⟨-, hw, hs⟩ := h a ha
    simp [hw, hs]
  have hslug : build_slug keyword = "" := by
    rw [build_slug, hfilter]
    rfl
  refine ⟨?_, by rw [hslug]; exact rfl⟩
  show "https://" ++ ((encodeIdna (build_slug keyword)).getD (build_slug keyword)) ++
      "." ++ BASE_URL = "https://.vuxo7.com"
  rw [hslug]
  exact rfl

/-- C6 amended witness at a concrete all-punctuation keyword. -/
theorem c6_amended_witness :
    (∀ c ∈ ("!?." : String).data,
      c.toNat < 128 ∧ isWordChar c = false ∧ isSpaceChar c = false) ∧
    build_search_query "!?." = "https://.vuxo7.com" ∧
    encodeIdna (build_slug "!?.") = some "" :=
  ⟨by decide, (c6_amended "!?." (by decide)).1, (c6_amended "!?." (by decide)).2⟩

/-! ### C7: how the slug treats whitespace -/

/-- C7 counterexample: for the keyword a, space, space, b the code turns
each of the two spaces into its own hyphen, so the produced URL differs
from the URL built from the whitespace-run-collapsing slug the claim
describes. -/
theorem c7_counterexample :
    build_search_query "a  b" = "https://a--b.vuxo7.com" ∧
    slugPerSpec "a  b" = "a-b" ∧
    build_search_query "a  b" ≠ "https://" ++ slugPerSpec "a  b" ++ "." ++ BASE_URL := by
  refine ⟨rfl, rfl, ?_⟩
  decide

theorem toLower_ne_space {c : Char} (hc : c ≠ ' ') : Char.toLower c ≠ ' ' := by
  intro h
  by_cases hr : c.toNat ≥ 65 ∧ c.toNat ≤ 90
  · have h2 : Char.ofNat (c.toNat + 32) = ' ' := by
      rw [show Char.toLower c =
          if c.toNat ≥ 65 ∧ c.toNat ≤ 90 then Char.ofNat (c.toNat + 32) else c from rfl] at h
      rwa [if_pos hr] at h
    obtain ⟨h65, h90⟩ := hr
    revert h65 h90 h2
    generalize c.toNat = n
    intro h2 h65 h90
    interval_cases n <;> revert h2 <;> decide
  · have h2 : Char.toLower c = c := by
      rw [show Char.toLower c =
          if c.toNat ≥ 65 ∧ c.toNat ≤ 90 then Char.ofNat (c.toNat + 32) else c from rfl]
      rw [if_neg hr]
    rw [h2] at h
    exact hc h

theorem replaceSpace_toLower_fuse (c : Char) :
    (if Char.toLower c = ' ' then '-' else Char.toLower c) =
      if c = ' ' then '-' else Char.toLower c := by
  by_cases hc : c = ' '
  · subst hc
    rfl
  · rw [if_neg hc, if_neg (toLower_ne_space hc)]

/-- C7 amended: the slug is formed by stripping characters that are neither
word characters nor whitespace, trimming, lower-casing, and replacing each
space character with a hyphen — a run of consecutive spaces yields one
hyphen per space, and non-space whitespace is left alone — and for the
keyword Daft Punk the slug is daft-punk and the URL is built from it. -/
theorem c7_amended (keyword : String) :
    build_slug keyword = slugPerSpecAmended keyword ∧
    build_slug "Daft Punk" = "daft-punk" ∧
    build_search_query "Daft Punk" = "https://daft-punk.vuxo7.com" := by
  refine ⟨?_, rfl, rfl⟩
  refine congrArg String.mk ?_
  show ((pyStrip (reSubNonWordSpace keyword.data)).map Char.toLower).map
      (fun c => if c = ' ' then '-' else c) =
    (pyStrip (reSubNonWordSpace keyword.data)).map
      (fun c => if c = ' ' then '-' else Char.toLower c)
  rw [List.map_map]
  exact List.map_congr_left fun c _ => replaceSpace_toLower_fuse c

end MusicBot
